import Mathlib

/-!
Verification development for the Sniper-bot-pro trading bot core
(`bot_logic.py`, `app.py`).

Modelling conventions:
* Python floats are modelled as exact rationals (`ℚ`); the numeric literals
  `0.01`, `200`, `150` of the source become `1/100`, `200`, `150`.
* Byte strings are modelled as `List ℕ` (one entry per byte, each < 256).
* Fallible RPC calls are modelled by an explicit outcome type (`RpcOutcome`):
  the Python `try`/`except` handlers of the source become `match` arms on it.
* Functions that in Python swallow every exception and return a sentinel are
  total functions returning that sentinel on the corresponding branch.
-/

namespace SniperBot

attribute [local semireducible] Rat.mul Rat.inv Rat.add Rat.sub

/-- Outcome of an external call: a returned value, or a raised exception
(with its message) that the caller's `except` handler will see. -/
inductive RpcOutcome (α : Type) where
  | ok (v : α)
  | exn (msg : String)
deriving DecidableEq

/-- Little-endian unsigned 64-bit read: `struct.unpack('<Q', data[off:off+8])`
in `bot_logic.py` (`get_token_price`, lines 203-204). -/
def readU64LE (data : List ℕ) (off : ℕ) : ℕ :=
  ((data.drop off).take 8).foldr (fun b acc => b + 256 * acc) 0

/-- The candidate `(sol_decimals, token_decimals)` pairs tried by the scanner,
in source order (`bot_logic.py` lines 183-189). -/
def decimalCandidates : List (ℕ × ℕ) := [(9, 6), (9, 9), (9, 0), (0, 6), (0, 9)]

/-- The 8-byte-aligned window starts scanned by `get_token_price`:
Python `range(0, len(data) - 8, 8)` (line 196), i.e. the multiples of 8
strictly below `len(data) - 8`. -/
def scanOffsets (n : ℕ) : List ℕ :=
  (List.range ((n - 8 + 7) / 8)).map (fun i => i * 8)

/-- All `(sol_start, token_start, sol_dec, token_dec)` candidates in the
order the nested loops of `get_token_price` (lines 196-208) visit them;
the `token_start == sol_start` case is skipped (line 198-199). -/
def scanCandidates (n : ℕ) : List (ℕ × ℕ × ℕ × ℕ) :=
  (scanOffsets n).flatMap (fun solStart =>
    (scanOffsets n).flatMap (fun tokenStart =>
      if tokenStart = solStart then []
      else decimalCandidates.map (fun p => (solStart, tokenStart, p.1, p.2))))

/-- The scaled `(virtual_sol_reserves, virtual_token_reserves)` pair of one
scan candidate (lines 210-211). -/
def candidateValues (data : List ℕ) (c : ℕ × ℕ × ℕ × ℕ) : ℚ × ℚ :=
  ((readU64LE data c.1 : ℚ) / 10 ^ c.2.2.1, (readU64LE data c.2.1 : ℚ) / 10 ^ c.2.2.2)

/-- The "basic sanity checks" of lines 214-215:
`0.01 < virtual_sol_reserves < 200` and `virtual_token_reserves > 0`. -/
def plausiblePair (v : ℚ × ℚ) : Bool :=
  decide (1 / 100 < v.1 ∧ v.1 < 200 ∧ 0 < v.2)

/-- The scan of `get_token_price` (lines 196-244): first candidate whose
values pass the sanity checks yields `(price_in_sol, virtual_sol_reserves)`
with `price = sol / token` (line 236). -/
def scanForReserves (data : List ℕ) : Option (ℚ × ℚ) :=
  (((scanCandidates data.length).map (candidateValues data)).find? plausiblePair).map
    (fun v => (v.1 / v.2, v.1))

/-- The observable shape of the RPC account response inside
`get_token_price`: no `response.value` (line 136), empty `value.data`
(line 139), data that fails base64/bytes conversion (lines 147-175), or the
decoded raw bytes. -/
inductive AccountResp where
  | noValue
  | noData
  | decodeFail
  | bytes (data : List ℕ)
deriving DecidableEq

/-- `BotManager.get_token_price` (`bot_logic.py` lines 125-259) as a total
function of the account response: every failure branch of the source returns
the sentinel `(0, 0)`, and the outer `try`/`except` (lines 256-259) makes the
Python function total as well. -/
def getTokenPrice : AccountResp → ℚ × ℚ
  | .noValue => (0, 0)
  | .noData => (0, 0)
  | .decodeFail => (0, 0)
  | .bytes data =>
      if data = [] then (0, 0)
      else if data.length < 16 then (0, 0)
      else match scanForReserves data with
        | some r => r
        | none => (0, 0)

/-- Modelled from the spec: the mandated fixed-offset decoder of spec §4.1 —
read two u64 little-endian fields at one protocol-defined offset pair,
scale each by its fixed decimal exponent, fail on an out-of-range read or on
zero token reserves, and return `(quote/base, quote_reserves)`.  Used only to
compare the source's scanning decoder against the spec's words. -/
def fixedOffsetDecode (solOff tokOff solDec tokDec : ℕ) (data : List ℕ) : Option (ℚ × ℚ) :=
  if solOff + 8 ≤ data.length ∧ tokOff + 8 ≤ data.length then
    let sol : ℚ := (readU64LE data solOff : ℚ) / 10 ^ solDec
    let tok : ℚ := (readU64LE data tokOff : ℚ) / 10 ^ tokDec
    if tok = 0 then none else some (sol / tok, sol)
  else none

/-- 24-byte blob holding `10^9` (LE) at offset 0, `10^6` at offset 8, zeros
after: the scanner accepts it at windows `(0, 8)` with decimals `(9, 6)`. -/
def blobA : List ℕ :=
  [0, 202, 154, 59, 0, 0, 0, 0, 64, 66, 15, 0, 0, 0, 0, 0, 0, 0, 0, 0, 0, 0, 0, 0]

/-- 24-byte blob holding `10^3` at offset 0 and `10^9` at offset 8: the
scanner rejects every candidate with the sol window at offset 0 and accepts
sol at offset 8, token at offset 0. -/
def blobB : List ℕ :=
  [232, 3, 0, 0, 0, 0, 0, 0, 0, 202, 154, 59, 0, 0, 0, 0, 0, 0, 0, 0, 0, 0, 0, 0]

/-- Like `blobB` but with `10^12` at offset 8: every scaled sol candidate now
falls outside the plausibility range `(0.01, 200)`, so the scan fails. -/
def blobC : List ℕ :=
  [232, 3, 0, 0, 0, 0, 0, 0, 0, 16, 165, 212, 232, 0, 0, 0, 0, 0, 0, 0, 0, 0, 0, 0]

/-- The position record built by `start_bot` (`bot_logic.py` lines 384-406)
and mutated by the monitoring loop.  `start_time` and `last_update` (ISO
timestamps in the source) are modelled as abstract instants (`ℕ`). -/
structure Position where
  token_address : String
  bonding_curve : String
  buy_amount_sol : ℚ
  entry_price_sol : ℚ
  entry_price_usd : ℚ
  current_price_sol : ℚ
  current_price_usd : ℚ
  position_size : ℚ
  position_value_usd : ℚ
  take_profit_percent : ℚ
  stop_loss_percent : ℚ
  tp_target_usd : ℚ
  sl_target_usd : ℚ
  pnl_usd : ℚ
  pnl_percent : ℚ
  tp_progress : ℚ
  bonding_curve_sol : ℚ
  tx_signature : Option String
  start_time : ℕ
  last_update : ℕ
  manual_sell_detected : Bool
deriving DecidableEq

/-- The `BotManager` state the claims are about: the `active` flag, the
in-memory `position`, and the contents of `position.json` (`posFile`). -/
structure BotState where
  active : Bool
  position : Option Position
  posFile : Option Position
deriving DecidableEq

/-- External outcomes one monitoring tick can observe:
the token-accounts RPC + balance parse inside `check_wallet_balance`
(exceptions there are caught at lines 120-123 and become balance `0`),
the result of `get_token_price` (total, `(0, 0)` on any failure),
the CoinGecko request inside `get_sol_price` (fallback `150`, line 103),
and whether the `position.json` write inside `save_position` succeeds
(its exceptions are swallowed at lines 79-81). -/
structure TickEnv where
  balance : RpcOutcome ℚ
  priceResult : ℚ × ℚ
  solPrice : RpcOutcome ℚ
  saveOk : Bool
deriving DecidableEq

/-- `BotManager.check_wallet_balance` (lines 105-123): the parsed balance,
or `0` when the RPC raises (the `except` branch returns `0`). -/
def checkWalletBalance (r : RpcOutcome ℚ) : ℚ :=
  match r with
  | .ok v => v
  | .exn _ => 0

/-- `BotManager.get_sol_price` (lines 92-103): the fetched price, or the
fallback constant `150` on any failure. -/
def getSolPrice (r : RpcOutcome ℚ) : ℚ :=
  match r with
  | .ok v => v
  | .exn _ => 150

/-- `BotManager.save_position` (lines 74-81): writes the in-memory position
to the file only when a position exists; a failing write (swallowed
exception) leaves the file as it was. -/
def savePositionTo (st : BotState) (saveOk : Bool) : BotState :=
  match st.position with
  | some _ => if saveOk then { st with posFile := st.position } else st
  | none => st

/-- The take-profit progress computed at lines 304-306:
`progress = min(pnl/tp*100, 100) if tp > 0 else 0`, then `max(progress, 0)`. -/
def tpProgress (pnl tp : ℚ) : ℚ :=
  max (if 0 < tp then min (pnl / tp * 100) 100 else 0) 0

/-- Modelled from the spec: `clamp(x, lo, hi)` as used by spec §4.5 step 4,
`tp_progress_percent = clamp(pnl_percent / take_profit_percent * 100, 0, 100)`. -/
def clampSpec (x lo hi : ℚ) : ℚ := min (max x lo) hi

/-- One iteration body of `BotManager.monitoring_loop` (lines 272-316).
With no position the tick just sleeps (lines 274-276).  Otherwise the
manual-sell check (lines 278-284) runs first: zero balance with a positive
stored size marks `manual_sell_detected`, persists, and stops the bot
(`stop_bot` sets `active = False`; the `break` ends the loop).  Only then is
the price updated (lines 286-309); a non-positive price skips the update.
A zero entry price makes line 297 raise `ZeroDivisionError`, which the
`except` at line 313 catches after the partial update of lines 291-294 and
before any save. -/
def tick (st : BotState) (env : TickEnv) (now : ℕ) : BotState :=
  match st.position with
  | none => st
  | some pos =>
    let bal := checkWalletBalance env.balance
    if bal = 0 ∧ 0 < pos.position_size then
      let st1 := savePositionTo
        { st with position := some { pos with manual_sell_detected := true } } env.saveOk
      { st1 with active := false }
    else
      let ps := env.priceResult
      if 0 < ps.1 then
        let solUsd := getSolPrice env.solPrice
        let cur := ps.1 * solUsd
        let pos1 := { pos with
          current_price_sol := ps.1
          current_price_usd := cur
          bonding_curve_sol := ps.2
          last_update := now }
        if pos.entry_price_usd = 0 then { st with position := some pos1 }
        else
          let pnl := (cur - pos.entry_price_usd) / pos.entry_price_usd * 100
          let pv := pos.position_size * cur
          let pos2 := { pos1 with
            pnl_percent := pnl
            position_value_usd := pv
            pnl_usd := pv - pos.buy_amount_sol * solUsd
            tp_progress := tpProgress pnl pos.take_profit_percent }
          savePositionTo { st with position := some pos2 } env.saveOk
      else st

/-- Fuel-bounded run of the `while self.active` monitoring loop: tick `k`
uses environment `envs k` and timestamp `times k`. -/
def runLoop (envs : ℕ → TickEnv) (times : ℕ → ℕ) : ℕ → ℕ → BotState → BotState
  | 0, _, st => st
  | fuel + 1, k, st =>
      if st.active = true then runLoop envs times fuel (k + 1) (tick st (envs k) (times k))
      else st

/-- Number of tick bodies the fuel-bounded loop actually executes. -/
def ticksRun (envs : ℕ → TickEnv) (times : ℕ → ℕ) : ℕ → ℕ → BotState → ℕ
  | 0, _, _ => 0
  | fuel + 1, k, st =>
      if st.active = true then ticksRun envs times fuel (k + 1) (tick st (envs k) (times k)) + 1
      else 0

/-- The dictionary returned by `pump_sdk.buy_token` as consumed by
`start_bot` (lines 365-377): `success`, optional `error`, optional
`signature`, optional `tokens_received`. -/
structure BuyResult where
  success : Bool
  errMsg : Option String
  signature : Option String
  tokens : Option ℚ
deriving DecidableEq

/-- External outcomes observed by one `start_bot` call: the derived bonding
curve (line 344), the `get_token_price` result (line 352), the SOL oracle
(line 360), the buy submission (line 365), the position-file write, and the
wall-clock instant for the two timestamps. -/
structure StartEnv where
  derive : Option String
  priceResult : ℚ × ℚ
  solPrice : RpcOutcome ℚ
  buy : BuyResult
  saveOk : Bool
  now : ℕ
deriving DecidableEq

/-- Result dictionary of `start_bot`: `{"success": True, ...}` or
`{"success": False, "error": msg, ...}`. -/
inductive StartResult where
  | ok (signature : Option String) (tokens entry : ℚ)
  | err (msg : String)
deriving DecidableEq

/-- `STOP_LOSS_PERCENT` (line 37). -/
def STOP_LOSS_PCT : ℚ := -20

/-- `BotManager.start_bot` (lines 325-426) as a function of the prior state
and the external outcomes; returns the result dictionary and the new state.
The guard order is the source's: missing wallet (line 329) is checked
before `self.active` (line 334); then bonding-curve derivation, the
zero-price check (line 355), the buy (line 371), and finally the position
is built, persisted, and the bot activated (lines 384-411). -/
def startBot (hasWallet : Bool) (st : BotState) (tokenAddress : String)
    (buyAmountSol takeProfitPercent : ℚ) (env : StartEnv) : StartResult × BotState :=
  if hasWallet = false then (.err "Private key not configured", st)
  else if st.active = true then (.err "Bot already running", st)
  else
    match env.derive with
    | none => (.err "Failed to derive bonding curve address", st)
    | some bc =>
      let pr := env.priceResult
      if pr.1 = 0 then
        (.err "Could not fetch token price - token may not be on bonding curve", st)
      else if env.buy.success = false then (.err (env.buy.errMsg.getD "Buy failed"), st)
      else
        let solUsd := getSolPrice env.solPrice
        let entry := pr.1 * solUsd
        let tokens := env.buy.tokens.getD (buyAmountSol / pr.1)
        let pos : Position := {
          token_address := tokenAddress
          bonding_curve := bc
          buy_amount_sol := buyAmountSol
          entry_price_sol := pr.1
          entry_price_usd := entry
          current_price_sol := pr.1
          current_price_usd := entry
          position_size := tokens
          position_value_usd := tokens * entry
          take_profit_percent := takeProfitPercent
          stop_loss_percent := STOP_LOSS_PCT
          tp_target_usd := entry * (1 + takeProfitPercent / 100)
          sl_target_usd := entry * (1 + STOP_LOSS_PCT / 100)
          pnl_usd := 0
          pnl_percent := 0
          tp_progress := 0
          bonding_curve_sol := pr.2
          tx_signature := env.buy.signature
          start_time := env.now
          last_update := env.now
          manual_sell_detected := false }
        let st1 := savePositionTo { st with position := some pos } env.saveOk
        (.ok env.buy.signature tokens entry, { st1 with active := true })

/-- Exactly `prec` decimal digit characters of `m` (most significant first),
as produced by Python's fixed-precision float formatting for a fraction
part `m < 10 ^ prec`. -/
def fixedDigits : ℕ → ℕ → List Char
  | 0, _ => []
  | k + 1, m => fixedDigits k (m / 10) ++ [Nat.digitChar (m % 10)]

/-- Python's `f"{x:.prec f}"` fixed-point rendering of a rational, modelled
with round-half-up at the last kept digit (the source never formats an
exact tie, so the tie-breaking rule is immaterial to the claims): the
optional sign, the integer digits, a dot, then exactly `prec` fraction
digits. -/
def ratToFixedStr (q : ℚ) (prec : ℕ) : String :=
  String.mk
    (((if q < 0 then "-" else "") ++
        toString ((⌊|q| * 10 ^ prec + 1 / 2⌋).toNat / 10 ^ prec)).data
      ++ '.' :: fixedDigits prec ((⌊|q| * 10 ^ prec + 1 / 2⌋).toNat % 10 ^ prec))

/-- Number of characters after the last `.` of a string: the count of
decimal places of a formatted price string. -/
def fracLen (s : String) : ℕ :=
  ((s.data.reverse).takeWhile (fun c => c != '.')).length

/-- `BotManager.format_number` (lines 261-268): human-abbreviated dollar
amounts with B/M/K suffixes. -/
def formatNumber (num : ℚ) : String :=
  if 1000000000 ≤ num then "$" ++ ratToFixedStr (num / 1000000000) 2 ++ "B"
  else if 1000000 ≤ num then "$" ++ ratToFixedStr (num / 1000000) 2 ++ "M"
  else if 1000 ≤ num then "$" ++ ratToFixedStr (num / 1000) 2 ++ "K"
  else "$" ++ ratToFixedStr num 2

/-- The dictionary shape returned by `BotManager.get_status`
(lines 434-473). -/
structure StatusView where
  active : Bool
  entry_price : String
  current_price : String
  price_change_percent : ℚ
  pnl_usd : ℚ
  pnl_percent : ℚ
  position_size : ℚ
  position_value : ℚ
  tp_target : String
  sl_target : String
  tp_progress : ℚ
  bonding_curve_sol : ℚ
  market_cap : String
  status : String
  manual_sell_detected : Bool
deriving DecidableEq

/-- The all-zero "ready" view returned when no position exists
(lines 435-452); note its price strings carry 8 decimal places. -/
def readyView : StatusView := {
  active := false
  entry_price := "$0.00000000"
  current_price := "$0.00000000"
  price_change_percent := 0
  pnl_usd := 0
  pnl_percent := 0
  position_size := 0
  position_value := 0
  tp_target := "$0.00000000"
  sl_target := "$0.00000000"
  tp_progress := 0
  bonding_curve_sol := 0
  market_cap := "$0"
  status := "ready"
  manual_sell_detected := false }

/-- `BotManager.get_status` (lines 434-473).  With a position, the four
price fields are formatted with `f"${...:.10f}"` — ten decimal places —
and `market_cap` uses the `size * price * 1000` display heuristic.
(The `get_sol_price` call at line 454 is dead: its result is unused.) -/
def getStatus (st : BotState) : StatusView :=
  match st.position with
  | none => readyView
  | some pos => {
      active := st.active
      entry_price := "$" ++ ratToFixedStr pos.entry_price_usd 10
      current_price := "$" ++ ratToFixedStr pos.current_price_usd 10
      price_change_percent := pos.pnl_percent
      pnl_usd := pos.pnl_usd
      pnl_percent := pos.pnl_percent
      position_size := pos.position_size
      position_value := pos.position_value_usd
      tp_target := "$" ++ ratToFixedStr pos.tp_target_usd 10
      sl_target := "$" ++ ratToFixedStr pos.sl_target_usd 10
      tp_progress := pos.tp_progress
      bonding_curve_sol := pos.bonding_curve_sol
      market_cap := formatNumber (pos.position_size * pos.current_price_usd * 1000)
      status := if st.active = true then "active sniping" else "stopped"
      manual_sell_detected := pos.manual_sell_detected }

/-- File contents (as a character list) that a crash during
`save_position` can leave in `position.json`.  The source writes in place:
`open(POSITION_FILE, 'w')` truncates the file, then `json.dump` appends the
serialized record.  The observable states are therefore the old contents
(crash before the `open`), every prefix of the new contents (crash after
the truncating `open`, including the empty file), and the full new
contents. -/
def directSaveTrace (old new : List Char) : List (List Char) :=
  old :: (List.range (new.length + 1)).map (fun k => new.take k)

/-- The attributes and methods the `BotManager` class defines
(`bot_logic.py` lines 39-473): `__init__`'s instance attributes followed by
the method names.  `is_active` is not among them. -/
def botManagerMembers : List String :=
  ["private_key", "rpc_url", "client", "active", "position",
   "monitoring_thread", "start_time", "wallet", "pump_sdk",
   "load_position", "save_position", "delete_position", "get_sol_price",
   "check_wallet_balance", "get_token_price", "format_number",
   "monitoring_loop", "start_monitoring", "start_bot", "stop_bot",
   "get_status"]

/-- Result of the `/api/health` handler (`app.py` lines 115-121): the JSON
payload, or the exception the handler lets escape. -/
inductive HealthResult where
  | ok (status : String) (botActive : Bool)
  | attributeError (missing : String)
deriving DecidableEq

/-- `health_check` (`app.py` lines 115-121): evaluates
`bot_manager.is_active()`.  Python attribute lookup succeeds only if the
class defines the name; otherwise the expression raises `AttributeError`
(the route has no `try`, so the error escapes as an HTTP 500). -/
def healthCheck (botActive : Bool) : HealthResult :=
  if "is_active" ∈ botManagerMembers then .ok "healthy" botActive
  else .attributeError "is_active"

/-- A concrete open position: bought 1 SOL worth at entry price $1.50,
100 tokens received, take-profit +50%. -/
def basePos : Position := {
  token_address := "TokenMint1111"
  bonding_curve := "Curve1111"
  buy_amount_sol := 1
  entry_price_sol := 1 / 100
  entry_price_usd := 3 / 2
  current_price_sol := 1 / 100
  current_price_usd := 3 / 2
  position_size := 100
  position_value_usd := 150
  take_profit_percent := 50
  stop_loss_percent := STOP_LOSS_PCT
  tp_target_usd := 9 / 4
  sl_target_usd := 6 / 5
  pnl_usd := 0
  pnl_percent := 0
  tp_progress := 0
  bonding_curve_sol := 30
  tx_signature := some "Sig1111"
  start_time := 0
  last_update := 0
  manual_sell_detected := false }

/-- A running bot holding `basePos`, with the position persisted. -/
def stMon : BotState := { active := true, position := some basePos, posFile := some basePos }

/-- Tick environment of the manual-sell scenario: the wallet reports a
holding of exactly `0`; everything else is healthy. -/
def envBalZero : TickEnv :=
  { balance := .ok 0, priceResult := (1 / 100, 30), solPrice := .ok 150, saveOk := true }

/-- Tick environment where the balance RPC raises and everything else is
healthy. -/
def envBalExn : TickEnv :=
  { balance := .exn "rpc timeout", priceResult := (1 / 100, 30), solPrice := .ok 150, saveOk := true }

/-- Tick environment where price decoding, the fiat oracle and the store
all fail, but the balance check succeeds with a nonzero holding. -/
def envAllFail : TickEnv :=
  { balance := .ok 5, priceResult := (0, 0), solPrice := .exn "oracle down", saveOk := false }

/-- Tick environment with a fresh valid price: price `2/100` SOL, curve
reserve `40`, oracle rate `150`. -/
def envPriceUp : TickEnv :=
  { balance := .ok 100, priceResult := (2 / 100, 40), solPrice := .ok 150, saveOk := true }

/-- Healthy start environment: curve derived, entry price `1/100` SOL,
oracle `150`, buy succeeds delivering 100 tokens. -/
def envStart : StartEnv :=
  { derive := some "Curve1111"
    priceResult := (1 / 100, 30)
    solPrice := .ok 150
    buy := { success := true, errMsg := none, signature := some "Sig1111", tokens := some 100 }
    saveOk := true
    now := 0 }

/-- Serialized contents of a previously saved position record. -/
def oldRecord : List Char := "old-position-record".toList

/-- Serialized contents of the record being saved over it. -/
def newRecord : List Char := "new-position-record".toList

/-- Helper: a successful `fixedOffsetDecode` implies the sol window is in
bounds and the returned quote-reserve value is the scaled u64 read at the
sol offset. -/
theorem fixedOffsetDecode_inv {so tOff sd td : ℕ} {data : List ℕ} {p s : ℚ}
    (h : fixedOffsetDecode so tOff sd td data = some (p, s)) :
    so + 8 ≤ data.length ∧ (readU64LE data so : ℚ) = s * 10 ^ sd := by
  simp only [fixedOffsetDecode] at h
  by_cases hb : so + 8 ≤ data.length ∧ tOff + 8 ≤ data.length
  · rw [if_pos hb] at h
    by_cases ht : (readU64LE data tOff : ℚ) / 10 ^ td = 0
    · rw [if_pos ht] at h
      exact absurd h (by simp)
    · rw [if_neg ht] at h
      have hs : (readU64LE data so : ℚ) / 10 ^ sd = s := congrArg Prod.snd (Option.some.inj h)
      rw [div_eq_iff (by positivity : ((10 : ℚ) ^ sd) ≠ 0)] at hs
      exact ⟨hb.1, hs⟩
  · rw [if_neg hb] at h
    exact absurd h (by simp)

/-- Helper: every aligned or unaligned sol offset that fits in the 24-byte
blobs reads either different u64 values from `blobA` and `blobB`, or the
value zero from both (the two blobs differ in bytes 0-3 and 8-11 and are
zero from byte 12 on). -/
theorem readU64LE_agree_zero :
    ∀ so : ℕ, so ≤ 16 → readU64LE blobA so = readU64LE blobB so →
      readU64LE blobA so = 0 := by decide

/-- Claim C5 (confirmed): every account blob shorter than the 16-byte
minimum makes `get_token_price` return the failure sentinel `(0, 0)`; the
decoder is a total function of the blob, so no out-of-bounds error can
escape. -/
theorem c5_too_short (data : List ℕ) (h : data.length < 16) :
    getTokenPrice (AccountResp.bytes data) = (0, 0) := by
  by_cases hd : data = []
  · simp [getTokenPrice, hd]
  · simp [getTokenPrice, hd, h]

/-- Witness for C5 at the concrete 3-byte blob `[5, 6, 7]`. -/
theorem c5_witness :
    ([5, 6, 7] : List ℕ).length < 16 ∧
      getTokenPrice (AccountResp.bytes [5, 6, 7]) = (0, 0) :=
  ⟨by decide, c5_too_short [5, 6, 7] (by decide)⟩

/-- Claim C10 (confirmed): `get_token_price` is a total function of the
RPC response; every failure path (missing value, missing data, undecodable
data, short blob, no plausible candidate) returns `(0, 0)`, and every
nonzero price is positive and equals `sol / token` for a scanned virtual
sol reserve strictly between `0.01` and `200` and a token reserve strictly
positive. -/
theorem c10_price_totality :
    getTokenPrice AccountResp.noValue = (0, 0) ∧
    getTokenPrice AccountResp.noData = (0, 0) ∧
    getTokenPrice AccountResp.decodeFail = (0, 0) ∧
    (∀ data : List ℕ, data.length < 16 → getTokenPrice (AccountResp.bytes data) = (0, 0)) ∧
    (∀ data : List ℕ, scanForReserves data = none →
      getTokenPrice (AccountResp.bytes data) = (0, 0)) ∧
    (∀ resp p s, getTokenPrice resp = (p, s) → p ≠ 0 →
      0 < p ∧ 1 / 100 < s ∧ s < 200 ∧ ∃ t : ℚ, 0 < t ∧ p = s / t) := by
  refine ⟨rfl, rfl, rfl, ?_, ?_, ?_⟩
  · intro data h
    by_cases hd : data = []
    · simp [getTokenPrice, hd]
    · simp [getTokenPrice, hd, h]
  · intro data h
    by_cases hd : data = []
    · simp [getTokenPrice, hd]
    · by_cases hl : data.length < 16
      · simp [getTokenPrice, hd, hl]
      · simp [getTokenPrice, hd, hl, h]
  · intro resp p s hres hp
    cases resp with
    | noValue => exact absurd (congrArg Prod.fst hres.symm) hp
    | noData => exact absurd (congrArg Prod.fst hres.symm) hp
    | decodeFail => exact absurd (congrArg Prod.fst hres.symm) hp
    | bytes data =>
      by_cases hd : data = []
      · have hz : getTokenPrice (AccountResp.bytes []) = (0, 0) := rfl
        rw [hd, hz] at hres
        exact absurd (congrArg Prod.fst hres.symm) hp
      · by_cases hl : data.length < 16
        · simp only [getTokenPrice, hd, if_false, hl, if_true, if_neg, if_pos] at hres
          exact absurd (congrArg Prod.fst hres.symm) hp
        · cases hscan : scanForReserves data with
          | none =>
            have : getTokenPrice (AccountResp.bytes data) = (0, 0) := by
              simp [getTokenPrice, hd, hl, hscan]
            rw [this] at hres
            exact absurd (congrArg Prod.fst hres.symm) hp
          | some r =>
            have hr : r = (p, s) := by
              have : getTokenPrice (AccountResp.bytes data) = r := by
                simp [getTokenPrice, hd, hl, hscan]
              rw [this] at hres
              exact hres
            simp only [scanForReserves] at hscan
            cases hfind :
                (((scanCandidates data.length).map (candidateValues data)).find?
                  plausiblePair) with
            | none => rw [hfind] at hscan; exact absurd hscan (by simp)
            | some v =>
              rw [hfind] at hscan
              have hv : plausiblePair v = true := List.find?_some hfind
              have hprops := of_decide_eq_true hv
              obtain ⟨h1, h2, h3⟩ := hprops
              have hrv : (v.1 / v.2, v.1) = r := by simpa using hscan
              rw [hr] at hrv
              have hpv : v.1 / v.2 = p := congrArg Prod.fst hrv
              have hsv : v.1 = s := congrArg Prod.snd hrv
              subst hpv; subst hsv
              exact ⟨div_pos (lt_trans (by norm_num) h1) h3, h1, h2, v.2, h3, rfl⟩

/-- Witness for C10 at `blobA`: nonzero price `1`, sol reserve `1`. -/
theorem c10_witness :
    getTokenPrice (AccountResp.bytes blobA) = (1, 1) ∧
      (0 < (1 : ℚ) ∧ 1 / 100 < (1 : ℚ) ∧ (1 : ℚ) < 200 ∧
        ∃ t : ℚ, 0 < t ∧ (1 : ℚ) = 1 / t) :=
  ⟨by decide,
    c10_price_totality.2.2.2.2.2 (AccountResp.bytes blobA) 1 1 (by decide) (by norm_num)⟩

/-- Claim C4, counterexample: no single fixed byte-offset pair with fixed
decimal exponents reproduces `get_token_price` on both `blobA` and `blobB`
— the scanner accepted the sol reserve at offset 0 on one blob and at
offset 8 on the other, so it is not a fixed-offset reader. -/
theorem c4_counterexample :
    ¬ ∃ solOff tokOff solDec tokDec : ℕ,
        fixedOffsetDecode solOff tokOff solDec tokDec blobA =
          some (getTokenPrice (AccountResp.bytes blobA)) ∧
        fixedOffsetDecode solOff tokOff solDec tokDec blobB =
          some (getTokenPrice (AccountResp.bytes blobB)) := by
  rintro ⟨so, tOff, sd, td, hA, hB⟩
  have eA : getTokenPrice (AccountResp.bytes blobA) = (1, 1) := by decide
  have eB : getTokenPrice (AccountResp.bytes blobB) = (1000, 1) := by decide
  rw [eA] at hA
  rw [eB] at hB
  obtain ⟨hboundA, hsA⟩ := fixedOffsetDecode_inv hA
  obtain ⟨hboundB, hsB⟩ := fixedOffsetDecode_inv hB
  have hEq : readU64LE blobA so = readU64LE blobB so := by
    have h := hsA.trans hsB.symm
    exact_mod_cast h
  have hso : so ≤ 16 := by
    have hlen : blobA.length = 24 := by decide
    rw [hlen] at hboundA
    omega
  have h0 : readU64LE blobA so = 0 := readU64LE_agree_zero so hso hEq
  have hcontra : (0 : ℚ) = 1 * 10 ^ sd := by
    rw [← hsA, h0]
    simp
  have : ((10 : ℚ) ^ sd) ≠ 0 := by positivity
  simp at hcontra
  exact this hcontra.symm

/-- Claim C4, amended behaviour: the decoder is a multi-offset scanner with
a plausibility filter.  The same decoder accepts the sol reserve from the
u64 at offset 0 on `blobA` and from the u64 at offset 8 on `blobB`, and
rejects `blobC` (whose only nonzero candidates scale outside
`(0.01, 200)`) entirely. -/
theorem c4_scanning_decoder :
    getTokenPrice (AccountResp.bytes blobA) = (1, 1) ∧
    getTokenPrice (AccountResp.bytes blobB) = (1000, 1) ∧
    getTokenPrice (AccountResp.bytes blobC) = (0, 0) ∧
    readU64LE blobA 0 = 10 ^ 9 ∧ readU64LE blobA 8 = 10 ^ 6 ∧
    readU64LE blobB 0 = 10 ^ 3 ∧ readU64LE blobB 8 = 10 ^ 9 ∧
    readU64LE blobC 8 = 10 ^ 12 := by
  exact ⟨by decide, by decide, by decide, by decide, by decide, by decide, by decide, by decide⟩

/-- Helper: an inactive state runs no further ticks, whatever the fuel. -/
theorem ticksRun_inactive (envs : ℕ → TickEnv) (times : ℕ → ℕ) (fuel k : ℕ)
    (st : BotState) (h : st.active = false) : ticksRun envs times fuel k st = 0 := by
  cases fuel with
  | zero => rfl
  | succ n => simp [ticksRun, h]

/-- Helper: `save_position` never changes the in-memory position. -/
theorem savePositionTo_position (st : BotState) (b : Bool) :
    (savePositionTo st b).position = st.position := by
  rcases st with ⟨a, p, f⟩
  cases p with
  | none => rfl
  | some x => by_cases hb : b = true <;> simp [savePositionTo, hb]

/-- Helper: `save_position` never changes the `active` flag. -/
theorem savePositionTo_active (st : BotState) (b : Bool) :
    (savePositionTo st b).active = st.active := by
  rcases st with ⟨a, p, f⟩
  cases p with
  | none => rfl
  | some x => by_cases hb : b = true <;> simp [savePositionTo, hb]

/-- Helper: the source's `max(min(x, 100), 0) if tp > 0 else 0` equals the
spec's `clamp(x, 0, 100)` for `tp > 0` and `0` otherwise. -/
theorem tpProgress_eq_clamp (pnl tp : ℚ) :
    tpProgress pnl tp = if 0 < tp then clampSpec (pnl / tp * 100) 0 100 else 0 := by
  unfold tpProgress clampSpec
  by_cases h : 0 < tp
  · simp only [if_pos h, min_def, max_def]
    split_ifs <;> first | rfl | linarith
  · simp [h]

/-- Claim C2 (confirmed): a tick that sees a wallet holding of exactly `0`
while the stored `position_size` is positive marks the position
`manual_sell_detected`, persists exactly that record to the position file,
clears `active`, and leaves every other field — in particular the price
fields — untouched (the manual-sell check runs before the price update);
with `active` cleared, the loop executes no further tick. -/
theorem c2_manual_sell (st : BotState) (env : TickEnv) (now : ℕ) (pos : Position)
    (hpos : st.position = some pos) (hsize : 0 < pos.position_size)
    (hbal : env.balance = RpcOutcome.ok 0) (hsave : env.saveOk = true) :
    (tick st env now).position = some { pos with manual_sell_detected := true } ∧
    (tick st env now).posFile = some { pos with manual_sell_detected := true } ∧
    (tick st env now).active = false ∧
    (∀ envs times fuel k, ticksRun envs times fuel k (tick st env now) = 0) := by
  have hbal0 : checkWalletBalance env.balance = 0 := by rw [hbal]; rfl
  have htick : tick st env now =
      { active := false
        position := some { pos with manual_sell_detected := true }
        posFile := some { pos with manual_sell_detected := true } } := by
    simp [tick, hpos, hbal0, hsize, savePositionTo, hsave]
  refine ⟨by rw [htick], by rw [htick], by rw [htick], ?_⟩
  intro envs times fuel k
  exact ticksRun_inactive envs times fuel k _ (by rw [htick])

/-- Witness for C2: the running bot holding `basePos` (size 100) with a
zero-balance tick flips to the stopped, manual-sell-marked state and runs
no further tick. -/
theorem c2_witness :
    (tick stMon envBalZero 3).position = some { basePos with manual_sell_detected := true } ∧
    (tick stMon envBalZero 3).posFile = some { basePos with manual_sell_detected := true } ∧
    (tick stMon envBalZero 3).active = false ∧
    ticksRun (fun _ => envBalZero) (fun _ => 0) 5 0 (tick stMon envBalZero 3) = 0 :=
  ⟨(c2_manual_sell stMon envBalZero 3 basePos rfl (by decide) rfl rfl).1,
   (c2_manual_sell stMon envBalZero 3 basePos rfl (by decide) rfl rfl).2.1,
   (c2_manual_sell stMon envBalZero 3 basePos rfl (by decide) rfl rfl).2.2.1,
   (c2_manual_sell stMon envBalZero 3 basePos rfl (by decide) rfl rfl).2.2.2
     (fun _ => envBalZero) (fun _ => 0) 5 0⟩

/-- Claim C3, amended behaviour: a tick with no position is a no-op; a tick
whose decode, oracle, or store steps fail (in any combination) leaves the
`active` flag unchanged, so such failures never terminate monitoring; but
an exception inside the wallet-balance check is converted to a balance of
`0` by `check_wallet_balance`'s own handler, and with a positive stored
size that tick takes the manual-sell path and terminates monitoring. -/
theorem c3_tick_exception_behaviour :
    (∀ st env now, st.position = none → tick st env now = st) ∧
    (∀ st env now pos, st.position = some pos →
      ¬(checkWalletBalance env.balance = 0 ∧ 0 < pos.position_size) →
      (tick st env now).active = st.active) ∧
    (∀ st env now pos msg, st.position = some pos →
      env.balance = RpcOutcome.exn msg → 0 < pos.position_size →
      (tick st env now).active = false ∧
      ((tick st env now).position.map Position.manual_sell_detected) = some true) := by
  refine ⟨?_, ?_, ?_⟩
  · intro st env now h
    simp [tick, h]
  · intro st env now pos hpos hcond
    simp only [tick, hpos]
    rw [if_neg hcond]
    split_ifs <;> simp [savePositionTo_active]
  · intro st env now pos msg hpos hbal hsize
    have hbal0 : checkWalletBalance env.balance = 0 := by rw [hbal]; rfl
    constructor
    · simp [tick, hpos, hbal0, hsize]
    · simp [tick, hpos, hbal0, hsize, savePositionTo_position]

/-- Witness for C3: a tick in which the decoder returns the failure
sentinel, the fiat oracle raises, and the store write fails leaves the bot
exactly as active as before. -/
theorem c3_witness : (tick stMon envAllFail 1).active = stMon.active :=
  c3_tick_exception_behaviour.2.1 stMon envAllFail 1 basePos rfl (by decide)

/-- Claim C3, counterexample: a tick during which the balance RPC raises —
an exception that is caught — still terminates monitoring, because the
swallowed exception is reported as a zero balance and triggers the
manual-sell path. -/
theorem c3_counterexample :
    stMon.active = true ∧ envBalExn.balance = RpcOutcome.exn "rpc timeout" ∧
    (tick stMon envBalExn 1).active = false :=
  ⟨rfl, rfl, by decide⟩

/-- Claim C6 (confirmed): the monitor's take-profit progress is the spec's
`clamp(pnl / tp * 100, 0, 100)` for `tp > 0` and `0` otherwise; the four
reference points at `tp = 50` evaluate to `0`, `50`, `100`, `100`; and on
every tick with a valid price (and no manual-sell condition, nonzero entry
price) the stored position's `tp_progress` is that clamp of its freshly
computed `pnl_percent`. -/
theorem c6_tp_progress_clamp :
    (∀ pnl tp : ℚ, tpProgress pnl tp = if 0 < tp then clampSpec (pnl / tp * 100) 0 100 else 0) ∧
    tpProgress (-10) 50 = 0 ∧ tpProgress 25 50 = 50 ∧
    tpProgress 60 50 = 100 ∧ tpProgress 200 50 = 100 ∧
    (∀ st env now pos, st.position = some pos →
      ¬(checkWalletBalance env.balance = 0 ∧ 0 < pos.position_size) →
      0 < env.priceResult.1 → pos.entry_price_usd ≠ 0 →
      ∃ pos', (tick st env now).position = some pos' ∧
        pos'.tp_progress =
          if 0 < pos.take_profit_percent
          then clampSpec (pos'.pnl_percent / pos.take_profit_percent * 100) 0 100
          else 0) := by
  refine ⟨tpProgress_eq_clamp, by decide, by decide, by decide, by decide, ?_⟩
  intro st env now pos hpos hcond hprice hentry
  simp only [tick, hpos]
  rw [if_neg hcond, if_pos hprice, if_neg hentry]
  refine ⟨_, by rw [savePositionTo_position], ?_⟩
  exact tpProgress_eq_clamp _ _

/-- Witness for C6: a tick of the running bot at price `0.02` SOL (entry
`$1.50`, oracle `150`) stores a `tp_progress` equal to the clamp of its new
`pnl_percent`. -/
theorem c6_witness :
    ∃ pos', (tick stMon envPriceUp 4).position = some pos' ∧
      pos'.tp_progress =
        if 0 < basePos.take_profit_percent
        then clampSpec (pos'.pnl_percent / basePos.take_profit_percent * 100) 0 100
        else 0 :=
  c6_tp_progress_clamp.2.2.2.2.2 stMon envPriceUp 4 basePos rfl (by decide) (by decide)
    (by decide)

/-- Claim C1, amended behaviour: every `start_bot` call made while
`active == true` fails and leaves the state — in-memory position and
position file included — completely unchanged; when a wallet is configured
the failure is the already-active error, but the wallet guard runs first,
so without a wallet the failure is the no-wallet error instead. -/
theorem c1_start_guard (hasWallet : Bool) (st : BotState) (ta : String) (amt tp : ℚ)
    (env : StartEnv) (h : st.active = true) :
    (startBot hasWallet st ta amt tp env).2 = st ∧
    (∃ msg, (startBot hasWallet st ta amt tp env).1 = StartResult.err msg) ∧
    (hasWallet = true →
      (startBot hasWallet st ta amt tp env).1 = StartResult.err "Bot already running") := by
  cases hasWallet with
  | false =>
    exact ⟨rfl, ⟨"Private key not configured", rfl⟩, fun hw => absurd hw (by decide)⟩
  | true =>
    have hrun : startBot true st ta amt tp env = (.err "Bot already running", st) := by
      simp [startBot, h]
    exact ⟨by rw [hrun], ⟨"Bot already running", by rw [hrun]⟩, fun _ => by rw [hrun]⟩

/-- Witness for C1: starting over the running bot `stMon` with a wallet
returns the already-active error and changes nothing. -/
theorem c1_witness :
    (startBot true stMon "TokenMint1111" 1 50 envStart).2 = stMon ∧
    (startBot true stMon "TokenMint1111" 1 50 envStart).1 =
      StartResult.err "Bot already running" :=
  ⟨(c1_start_guard true stMon "TokenMint1111" 1 50 envStart rfl).1,
   (c1_start_guard true stMon "TokenMint1111" 1 50 envStart rfl).2.2 rfl⟩

/-- Claim C1, counterexample: with the bot active but no wallet configured
(the state reached by loading a persisted position with no private key),
`start_bot` fails with the no-wallet error, not the already-active error —
the claim's "always returns AlreadyActive" is false as stated. -/
theorem c1_counterexample :
    stMon.active = true ∧
    (startBot false stMon "TokenMint1111" 1 50 envStart).1 =
      StartResult.err "Private key not configured" ∧
    StartResult.err "Private key not configured" ≠ StartResult.err "Bot already running" :=
  ⟨rfl, rfl, by decide⟩

/-- Claim C7, counterexample: the in-place write of `save_position` passes
through a crash-observable state (the truncated, empty file) that is
neither the old record nor the new one — the write is not atomic in the
write-to-temp-then-rename sense. -/
theorem c7_counterexample :
    ¬ ∀ s ∈ directSaveTrace oldRecord newRecord, s = oldRecord ∨ s = newRecord := by
  decide

/-- Claim C7, amended behaviour: `save_position` writes in place — the
completed save does leave exactly the new record (the trace ends with it),
but the trace of crash-observable file states also contains the empty file
and, by construction, every partial prefix of the new record. -/
theorem c7_in_place_save (old new : List Char) :
    [] ∈ directSaveTrace old new ∧
    new ∈ directSaveTrace old new ∧
    ∃ l, directSaveTrace old new = old :: l ∧ l.getLast? = some new := by
  refine ⟨?_, ?_, ?_⟩
  · exact List.mem_cons_of_mem _
      (List.mem_map.mpr ⟨0, List.mem_range.mpr (Nat.succ_pos _), rfl⟩)
  · exact List.mem_cons_of_mem _
      (List.mem_map.mpr ⟨new.length, List.mem_range.mpr (Nat.lt_succ_self _),
        List.take_length new⟩)
  · refine ⟨_, rfl, ?_⟩
    rw [List.range_succ, List.map_append, List.map_singleton, List.getLast?_concat]
    rw [List.take_length new]

/-- Helper: the digit list produced for a fraction part always has exactly
`prec` entries. -/
theorem fixedDigits_length (k m : ℕ) : (fixedDigits k m).length = k := by
  induction k generalizing m with
  | zero => rfl
  | succ n ih => simp [fixedDigits, ih]

/-- Helper: decimal digit characters are never the dot. -/
theorem digitChar_ne_dot : ∀ d : ℕ, d < 10 → Nat.digitChar d ≠ '.' := by decide

/-- Helper: no character of a fraction-digit list is the dot. -/
theorem fixedDigits_no_dot (k m : ℕ) : ∀ c ∈ fixedDigits k m, (c != '.') = true := by
  induction k generalizing m with
  | zero => intro c hc; cases hc
  | succ n ih =>
    intro c hc
    rw [fixedDigits] at hc
    rcases List.mem_append.mp hc with h | h
    · exact ih _ c h
    · have hc' : c = Nat.digitChar (m % 10) := by simpa using h
      subst hc'
      have hlt : m % 10 < 10 := Nat.mod_lt _ (by norm_num)
      simpa [bne_iff_ne] using digitChar_ne_dot _ hlt

/-- Helper: `takeWhile` over dot-free characters stops exactly at the
first dot. -/
theorem takeWhile_stop (l rest : List Char) (h : ∀ c ∈ l, (c != '.') = true) :
    ((l ++ '.' :: rest).takeWhile (fun c => c != '.')) = l := by
  induction l with
  | nil => simp
  | cons a t ih =>
    have ha := h a (List.mem_cons_self a t)
    simp [List.takeWhile_cons, ha, ih (fun c hc => h c (List.mem_cons_of_mem _ hc))]

/-- Helper: string append concatenates the underlying character lists. -/
theorem data_append (s t : String) : (s ++ t).data = s.data ++ t.data := by
  cases s; cases t; rfl

/-- Helper: the decimal-place count of a prefixed fixed-point rendering is
exactly the requested precision. -/
theorem fracLen_fixed (pre : String) (q : ℚ) (prec : ℕ) :
    fracLen (pre ++ ratToFixedStr q prec) = prec := by
  unfold fracLen ratToFixedStr
  rw [data_append]
  rw [show (String.mk (((if q < 0 then "-" else "") ++
      toString ((⌊|q| * 10 ^ prec + 1 / 2⌋).toNat / 10 ^ prec)).data
    ++ '.' :: fixedDigits prec ((⌊|q| * 10 ^ prec + 1 / 2⌋).toNat % 10 ^ prec))).data =
      ((if q < 0 then "-" else "") ++
        toString ((⌊|q| * 10 ^ prec + 1 / 2⌋).toNat / 10 ^ prec)).data
      ++ '.' :: fixedDigits prec ((⌊|q| * 10 ^ prec + 1 / 2⌋).toNat % 10 ^ prec) from rfl]
  rw [← List.append_assoc, List.reverse_append, List.reverse_cons, List.append_assoc,
    List.singleton_append]
  rw [takeWhile_stop _ _
    (fun c hc => fixedDigits_no_dot _ _ c (List.mem_reverse.mp hc))]
  rw [List.length_reverse, fixedDigits_length]

/-- Claim C8, amended behaviour: with no position, `get_status` returns the
fixed all-zero "ready" view, whose price strings carry 8 decimal places;
but whenever a position exists the four price fields are formatted with 10
decimal places, not 8. -/
theorem c8_status_view :
    (∀ st : BotState, st.position = none → getStatus st = readyView) ∧
    readyView.entry_price = "$0.00000000" ∧
    readyView.current_price = "$0.00000000" ∧
    readyView.tp_target = "$0.00000000" ∧
    readyView.sl_target = "$0.00000000" ∧
    readyView.status = "ready" ∧
    fracLen readyView.entry_price = 8 ∧
    (∀ st pos, st.position = some pos →
      fracLen (getStatus st).entry_price = 10 ∧
      fracLen (getStatus st).current_price = 10 ∧
      fracLen (getStatus st).tp_target = 10 ∧
      fracLen (getStatus st).sl_target = 10) := by
  refine ⟨?_, rfl, rfl, rfl, rfl, rfl, by decide, ?_⟩
  · intro st h
    simp [getStatus, h]
  · intro st pos h
    refine ⟨?_, ?_, ?_, ?_⟩ <;> simp [getStatus, h, fracLen_fixed]

/-- Witness for C8: the status view of the running bot holding `basePos`
formats all four price fields with 10 decimal places. -/
theorem c8_witness :
    fracLen (getStatus stMon).entry_price = 10 ∧
    fracLen (getStatus stMon).current_price = 10 ∧
    fracLen (getStatus stMon).tp_target = 10 ∧
    fracLen (getStatus stMon).sl_target = 10 :=
  c8_status_view.2.2.2.2.2.2.2 stMon basePos rfl

/-- Claim C8, counterexample: with a position open, the `entry_price`
string has 10 decimal places, so it is not a fixed-8-decimal string. -/
theorem c8_counterexample :
    stMon.position = some basePos ∧ fracLen (getStatus stMon).entry_price ≠ 8 :=
  ⟨rfl, by decide⟩

/-- Claim C9: the `/api/health` handler evaluates
`bot_manager.is_active()`, but `BotManager` defines no `is_active` member,
so every invocation — whatever the `active` flag — raises `AttributeError`
instead of returning the liveness payload. -/
theorem c9_health_attribute_error :
    ∀ b : Bool, healthCheck b = HealthResult.attributeError "is_active" := by decide

end SniperBot
